import Mathlib

namespace DGProxy

/-!
JSON-like values, the payload universe of upstream events: `obj` keeps
fields as an association list in source order, `arr` keeps element
order.  This is exactly the data `sanitizeEventData` can reach, since it
starts from `JSON.parse(JSON.stringify(data))`. -/

mutual

inductive Json where
  | null : Json
  | bool (b : Bool) : Json
  | num (n : Int) : Json
  | str (s : String) : Json
  | arr (xs : JsonList) : Json
  | obj (fields : JsonFields) : Json
deriving DecidableEq, Repr

inductive JsonList where
  | nil : JsonList
  | cons (head : Json) (tail : JsonList) : JsonList
deriving DecidableEq, Repr

inductive JsonFields where
  | nil : JsonFields
  | cons (name : String) (value : Json) (tail : JsonFields) : JsonFields
deriving DecidableEq, Repr

end

/-- The `sensitiveFields` list of src/unnamed/part_000, lines 17-29. -/
def sensitiveFields : List String :=
  ["key", "Authorization", "headers", "_tlsOptions", "secureContext",
   "ssl", "_socket", "request_id", "_readableState", "_writableState",
   "baseUrl"]

mutual

/-- `removeSensitiveInfo` of src/unnamed/part_000 (lines 31-50) on one
value.  Non-container values are returned unchanged (the
`typeof obj !== 'object'` guard). -/
def removeSensitiveVal (apiKey : String) : Json → Json
  | .null => .null
  | .bool b => .bool b
  | .num n => .num n
  | .str s => .str s
  | .arr xs => .arr (removeSensitiveArr apiKey xs)
  | .obj fs => .obj (removeSensitiveFields apiKey fs)

/-- `removeSensitiveInfo` on an array.  `delete obj[field]` with the
sensitive field names is a no-op on an array, while the loop over
`Object.entries` deletes any slot whose value strictly equals the API
key, leaving a hole that `Object.values` skips and that later
`JSON.stringify` serializes as `null`; surviving slots are recursed
into. -/
def removeSensitiveArr (apiKey : String) : JsonList → JsonList
  | .nil => .nil
  | .cons x xs =>
      .cons (if x = .str apiKey then .null else removeSensitiveVal apiKey x)
        (removeSensitiveArr apiKey xs)

/-- `removeSensitiveInfo` on an object: a field is deleted when its name
is in `sensitiveFields` or its value strictly equals the API key; the
surviving values are then recursed into. -/
def removeSensitiveFields (apiKey : String) : JsonFields → JsonFields
  | .nil => .nil
  | .cons f v fs =>
      if decide (f ∈ sensitiveFields) || decide (v = .str apiKey) then
        removeSensitiveFields apiKey fs
      else
        .cons f (removeSensitiveVal apiKey v) (removeSensitiveFields apiKey fs)

end

/-- `sanitizeEventData` of src/unnamed/part_000, lines 12-54: deep-copy
the payload (`JSON.parse(JSON.stringify(data))`, the identity on
`Json`), then run `removeSensitiveInfo` on it.  The API key the source
reads from `process.env.DEEPGRAM_API_KEY` (falling back to
`config.deepgram.key`) is a parameter here. -/
def sanitizeEventData (apiKey : String) (data : Json) : Json :=
  removeSensitiveVal apiKey data

mutual

/-- A value is clean for `apiKey` when, recursively, no object field has
a name in `sensitiveFields`, no object field holds the bare API key
string, and no array slot holds the bare API key string. -/
def cleanVal (apiKey : String) : Json → Bool
  | .arr xs => cleanArr apiKey xs
  | .obj fs => cleanFields apiKey fs
  | _ => true

/-- Array part of `cleanVal`. -/
def cleanArr (apiKey : String) : JsonList → Bool
  | .nil => true
  | .cons x xs =>
      !(x == .str apiKey) && cleanVal apiKey x && cleanArr apiKey xs

/-- Object part of `cleanVal`. -/
def cleanFields (apiKey : String) : JsonFields → Bool
  | .nil => true
  | .cons f v fs =>
      !(decide (f ∈ sensitiveFields)) && !(v == .str apiKey) &&
        cleanVal apiKey v && cleanFields apiKey fs

end

/-- The seven event kinds routed through the `forEach` forwarding block of
src/unnamed/part_000, lines 240-267 (Open, Close and Error have bespoke
handlers above it). -/
inductive FwdKind where
  | Warning : FwdKind
  | Transcript : FwdKind
  | Metadata : FwdKind
  | SpeechStarted : FwdKind
  | SpeechFinished : FwdKind
  | UtteranceEnd : FwdKind
  | Unhandled : FwdKind
deriving DecidableEq, Repr

/-- The string value of the SDK constant `LiveTranscriptionEvents.Unhandled`
(a member of the SDK's string enum). -/
def unhandledEventName : String := "Unhandled"

/-- JavaScript truthiness of a string value: every non-empty string is
truthy. -/
def jsTruthyString (s : String) : Bool := s ≠ ""

/-- The condition of the ternary on lines 253-254 of src/unnamed/part_000:
`eventName === Warning || eventName === Metadata || LiveTranscriptionEvents.Unhandled`.
The third disjunct is the bare SDK constant, not a comparison, so the
whole condition evaluates to its truthiness whenever the first two
disjuncts are false. -/
def shouldSanitize (eventName : FwdKind) : Bool :=
  eventName == .Warning || eventName == .Metadata ||
    jsTruthyString unhandledEventName

/-- The payload handed to `sendToClient` by the `forEach` handler of
src/unnamed/part_000, lines 249-260: the sanitized copy when the ternary
condition holds, the original payload otherwise. -/
def forwardedEventData (apiKey : String) (eventName : FwdKind)
    (data : Json) : Json :=
  if shouldSanitize eventName then sanitizeEventData apiKey data else data

end DGProxy

namespace DGProxy.Proxy

/-!
State machine of the live proxy, src/src/server/proxy.js: one client
session's `connectionState` plus the surrounding closure state, with the
event handlers embedded as a step function that returns the successor
state together with the trace of externally visible effects.

Deepgram connection handles are identified by natural numbers.  The
`opened` component records every handle whose Open event has been
processed (line 90: the SDK fires Open exactly when the upstream
connection confirms open).  `timerActive` records whether the keepalive
interval of line 283 is still installed, `wsOpen` whether
`clientWs.readyState === WebSocket.OPEN`, `registered` membership in the
`activeConnections` map, `pendingFrame` an audio frame whose handler is
suspended on `await initializeDeepgramConnection()` (line 334), and
`startupPending` that the initial `await initializeDeepgramConnection()`
of line 302 has not settled yet.
-/

structure ConnState where
  dgConnection : Option Nat
  isAlive : Bool
  isClosing : Bool
  timerActive : Bool
  wsOpen : Bool
  registered : Bool
  opened : List Nat
  pendingFrame : Option Nat
  startupPending : Bool
deriving DecidableEq, Repr

/-- Messages the proxy itself sends on the client socket. -/
inductive ClientMsg where
  | ready : ClientMsg
  | event (p : Nat) : ClientMsg
deriving DecidableEq, Repr

/-- Externally visible effects of one handler invocation. -/
inductive Effect where
  | clientSend (m : ClientMsg) : Effect
  | upstreamSend (h : Nat) (frame : Nat) : Effect
  | upstreamFinish (h : Nat) : Effect
  | clientClose : Effect
  | clientPing : Effect
  | clearTimer : Effect
  | initAttempt : Effect
deriving DecidableEq, Repr

/-- Events a session reacts to: Deepgram events on a handle, client
frames, the websocket lifecycle callbacks, keepalive timer ticks, and
settlement of a pending `initializeDeepgramConnection` promise.
`fwdEvt` stands for any of Warning, Transcript, Metadata, SpeechStarted,
UtteranceEnd and Unhandled, whose handlers in proxy.js are structurally
identical; SpeechFinished is separate because two listeners are
registered for it (lines 181-190 and 214-223). -/
inductive Event where
  | openEvt (h : Nat) (p : Nat) : Event
  | closeEvt (h : Nat) (p : Nat) : Event
  | errorEvt (p : Nat) : Event
  | fwdEvt (p : Nat) : Event
  | speechFinishedEvt (p : Nat) : Event
  | media (f : Nat) : Event
  | stopMsg : Event
  | otherControl : Event
  | pong : Event
  | tick : Event
  | clientClosed : Event
  | clientError : Event
  | initFail : Event
deriving DecidableEq, Repr

/-- `sendToClient` (proxy.js lines 235-244): sends only when the client
socket is open and the session is not closing. -/
def sendToClient (s : ConnState) (m : ClientMsg) : List Effect :=
  if s.wsOpen && !s.isClosing then [.clientSend m] else []

/-- `terminateConnection` (proxy.js lines 249-280).  In source order: set
`isClosing`; clear the keepalive interval (the interval id always
exists, so `clearInterval` is always called); `finish()` and null the
Deepgram connection if present; delete the session from
`activeConnections`; close the client socket if it is still open.
There is no entry guard: every invocation runs the whole body. -/
def terminateConnection (s : ConnState) : ConnState × List Effect :=
  let dgEff : List Effect :=
    match s.dgConnection with
    | some h => [.upstreamFinish h]
    | none => []
  let wsEff : List Effect := if s.wsOpen then [.clientClose] else []
  ({ s with isClosing := true, timerActive := false, dgConnection := none,
            registered := false, wsOpen := false },
   Effect.clearTimer :: (dgEff ++ wsEff))

/-- One handler invocation of proxy.js, as a function from the event and
the current state to the successor state and the effect trace.

Event-by-event correspondence with the source:
* `openEvt` — lines 90-104: when not closing, forward the Open payload,
  clear the connect timeout, store the handle, and resolve the pending
  `initializeDeepgramConnection` promise, which resumes the suspended
  caller: the startup flow sends `ready` (lines 302-306), a suspended
  media handler sends its frame (lines 334-345).
* `closeEvt` — lines 106-119: null the handle if it is the current one,
  then forward the payload when not closing.
* `errorEvt` — lines 121-135: the handler's first statement logs the
  undefined binding `error` and therefore throws a ReferenceError before
  doing anything else, so the handler neither forwards the payload, nor
  rejects the promise, nor changes state; the exception is only logged
  by the process-level uncaughtException handler of index.js.
* `fwdEvt`/`speechFinishedEvt` — lines 137-223: forward when not
  closing; SpeechFinished has two identical listeners, so its body runs
  twice per event.
* `media` — lines 314-353, non-JSON branch: ignored when closing;
  forwarded to the current handle when one exists; otherwise one
  reinitialization attempt is started and the handler suspends with the
  frame until the promise settles.
* `stopMsg` — lines 314-328: ignored when closing; finish and null the
  current handle if present.
* `otherControl` — a JSON frame whose `type` is not "stop": no effect.
* `pong` — lines 296-298: mark the session alive.
* `tick` — lines 283-293: fires only while the interval is installed;
  terminate when not alive and not closing, else clear the alive flag
  and ping the client if its socket is open.
* `clientClosed`/`clientError` — lines 357-366: terminate (on `close`
  the socket is no longer open, so the terminating close call is
  skipped).
* `initFail` — rejection of `initializeDeepgramConnection` (the 10s
  timeout of lines 76-78 or a construction throw, lines 224-227): the
  startup catch (lines 307-311) terminates; the media-handler catch
  (lines 335-338) just drops the frame and returns.

The path where `dgConnection.send` itself throws (lines 346-352, a
one-shot "Failed to process audio" notice) is transport nondeterminism
no claim depends on and is not modelled. -/
def step (e : Event) (s : ConnState) : ConnState × List Effect :=
  match e with
  | .openEvt h p =>
      if s.isClosing then (s, [])
      else
        let fwdEff := sendToClient s (.event p)
        let s1 := { s with dgConnection := some h, opened := h :: s.opened }
        if s1.startupPending then
          ({ s1 with startupPending := false },
           fwdEff ++ sendToClient s1 .ready)
        else
          match s1.pendingFrame with
          | some f => ({ s1 with pendingFrame := none },
                       fwdEff ++ [.upstreamSend h f])
          | none => (s1, fwdEff)
  | .closeEvt h p =>
      let s1 := if s.dgConnection = some h then { s with dgConnection := none }
                else s
      (s1, sendToClient s1 (.event p))
  | .errorEvt _ => (s, [])
  | .fwdEvt p =>
      (s, if s.isClosing then [] else sendToClient s (.event p))
  | .speechFinishedEvt p =>
      let once := if s.isClosing then [] else sendToClient s (.event p)
      (s, once ++ once)
  | .media f =>
      if s.isClosing then (s, [])
      else
        match s.dgConnection with
        | some h => (s, [.upstreamSend h f])
        | none => ({ s with pendingFrame := some f }, [.initAttempt])
  | .stopMsg =>
      if s.isClosing then (s, [])
      else
        match s.dgConnection with
        | some h => ({ s with dgConnection := none }, [.upstreamFinish h])
        | none => (s, [])
  | .otherControl => (s, [])
  | .pong => ({ s with isAlive := true }, [])
  | .tick =>
      if !s.timerActive then (s, [])
      else if !s.isAlive && !s.isClosing then terminateConnection s
      else ({ s with isAlive := false },
            if s.wsOpen then [.clientPing] else [])
  | .clientClosed => terminateConnection { s with wsOpen := false }
  | .clientError => terminateConnection s
  | .initFail =>
      if s.startupPending then
        terminateConnection { s with startupPending := false }
      else ({ s with pendingFrame := none }, [])

/-- The state of a session right after `wss.on('connection')` set up its
`connectionState` (lines 55-62), its keepalive interval (line 283) and
started the initial `initializeDeepgramConnection()` (line 302). -/
def initState : ConnState :=
  { dgConnection := none, isAlive := true, isClosing := false,
    timerActive := true, wsOpen := true, registered := true,
    opened := [], pendingFrame := none, startupPending := true }

/-- States a session can actually be in: `initState` and everything the
event handlers can produce from it. -/
inductive Reachable : ConnState → Prop where
  | init : Reachable initState
  | next {s : ConnState} (e : Event) : Reachable s → Reachable (step e s).1

/-- Session invariant: a stored handle has had its Open observed; a
closing session has no handle, no timer and no open socket; a ticking
timer implies a non-closing session with an open socket. -/
def invState (s : ConnState) : Bool :=
  (match s.dgConnection with
   | some h => decide (h ∈ s.opened)
   | none => true) &&
  (!s.isClosing || (s.dgConnection == none && !s.timerActive && !s.wsOpen)) &&
  (!s.timerActive || (!s.isClosing && s.wsOpen))

/-- Whether an effect is a message sent on the client socket. -/
def Effect.isClientSend : Effect → Bool
  | .clientSend _ => true
  | _ => false

/-- Whether every upstream media send in the trace of a step goes to a
handle whose Open confirmation is recorded in the resulting state. -/
def sendsOnlyOpened (r : ConnState × List Effect) : Bool :=
  r.2.all fun eff =>
    match eff with
    | .upstreamSend h _ => decide (h ∈ r.1.opened)
    | _ => true

end DGProxy.Proxy

namespace DGProxy.SProxy

/-!
The upstream Error flow of the sanitizing proxy variant,
src/unnamed/part_000: its `connectionState`, `sendToClient` (lines
110-119), `terminateConnection` (lines 124-151), the
`LiveTranscriptionEvents.Error` listener (lines 218-237), and the two
places the rejection that this listener can issue is caught: the
session-startup `await` (lines 294-305, whose catch terminates the
session) and the lazy re-initialization `await` inside the message
handler (lines 325-332, whose catch logs, drops the frame and
returns). -/

structure SState where
  dgConnection : Option Nat
  isClosing : Bool
  wsOpen : Bool
deriving DecidableEq, Repr

inductive SEffect where
  | clientSend (p : Json) : SEffect
  | upstreamFinish (h : Nat) : SEffect
  | clientClose : SEffect
  | clearTimer : SEffect
deriving DecidableEq, Repr

/-- `sendToClient` of src/unnamed/part_000, lines 110-119. -/
def sendToClient (s : SState) (p : Json) : List SEffect :=
  if s.wsOpen && !s.isClosing then [.clientSend p] else []

/-- `terminateConnection` of src/unnamed/part_000, lines 124-151 (same
shape as in the live proxy). -/
def terminateConnection (s : SState) : SState × List SEffect :=
  let dgEff : List SEffect :=
    match s.dgConnection with
    | some h => [.upstreamFinish h]
    | none => []
  let wsEff : List SEffect := if s.wsOpen then [.clientClose] else []
  ({ dgConnection := none, isClosing := true, wsOpen := false },
   SEffect.clearTimer :: (dgEff ++ wsEff))

/-- The sends performed by the Error listener (lines 218-227): the
payload is sanitized and forwarded when the session is not closing. -/
def errorHandlerEffects (apiKey : String) (s : SState) (p : Json) :
    List SEffect :=
  if !s.isClosing then sendToClient s (sanitizeEventData apiKey p) else []

/-- Lines 229-233: the listener rejects the pending initialization
promise exactly when no current handle exists. -/
def errorHandlerRejects (s : SState) : Bool :=
  s.dgConnection == none

/-- An upstream error arriving while the session-startup `await` is
pending: the listener runs, and if it rejects, the startup catch (lines
301-305) calls `terminateConnection`. -/
def errorDuringStartup (apiKey : String) (s : SState) (p : Json) :
    SState × List SEffect :=
  let fwd := errorHandlerEffects apiKey s p
  if errorHandlerRejects s then
    let r := terminateConnection s
    (r.1, fwd ++ r.2)
  else (s, fwd)

/-- An upstream error arriving while the lazy re-initialization `await`
of the media path is pending: the listener runs, and if it rejects, the
catch of lines 329-332 only logs and returns, dropping the frame. -/
def errorDuringReinit (apiKey : String) (s : SState) (p : Json) :
    SState × List SEffect :=
  (s, errorHandlerEffects apiKey s p)

end DGProxy.SProxy

namespace DGProxy.Meter

/-!
Usage metering.  The consumer side is embedded from
src/src/server/index.js; the producer side (the usage-meter checkpoint
that the proxy runs during teardown) is not part of the sources — the
proxy variant under src/ never emits `credit_update` — and is modelled
from the specification. -/

/-- One usage increment, the payload of a `credit_update` event as
destructured by the listener of src/src/server/index.js line 90. -/
structure Increment where
  userId : String
  duration : Nat
  isClosed : Bool
deriving DecidableEq, Repr

/-- Operations on the ledger collaborator (`CreditManager`). -/
inductive LedgerOp where
  | buffer (userId : String) (seconds : Nat) : LedgerOp
  | flush (userId : String) : LedgerOp
deriving DecidableEq, Repr

/-- The `proxyEvents.on('credit_update')` listener of
src/src/server/index.js, lines 90-108: in debug mode nothing happens;
otherwise a final update is buffered and then flushed, a non-final
update is only buffered. -/
def creditUpdateListener (debugMode : Bool) (u : Increment) :
    List LedgerOp :=
  if debugMode then []
  else if u.isClosed then [.buffer u.userId u.duration, .flush u.userId]
  else [.buffer u.userId u.duration]

/-- Modelled from the spec: the per-session state the Usage Meter keeps
(spec sections 3 and 4.4) — the teardown one-shot flag, the accumulated
usage duration, and the elapsed seconds since the last checkpoint
start.  The proxy version that owns this state is missing from src/. -/
structure MeterSession where
  isClosing : Bool
  accumulated : Nat
  sinceCheckpoint : Nat
deriving DecidableEq, Repr

/-- Modelled from the spec: `terminate` (spec section 4.1), restricted to
its usage-metering obligations — guarded so its body runs at most once
(sections 4.1 and 5), and triggering exactly one final
`checkpoint(isFinal = true)` (section 4.4), which emits one increment
carrying the elapsed time since the last checkpoint, even when that
time is zero.  The emitting proxy version is missing from src/. -/
def specTerminate (userId : String) (s : MeterSession) :
    MeterSession × List Increment :=
  if s.isClosing then (s, [])
  else
    ({ isClosing := true, accumulated := s.accumulated + s.sinceCheckpoint,
       sinceCheckpoint := 0 },
     [{ userId := userId, duration := s.sinceCheckpoint, isClosed := true }])

/-- `n` invocations of the teardown path.  Every way a session can end —
client close, client error, keepalive timeout, startup failure,
shutdown sweep — converges on `terminate`, so a session whose life ends
in any combination of those triggers runs this for some positive `n`. -/
def runTeardowns (userId : String) : Nat → MeterSession →
    MeterSession × List Increment
  | 0, s => (s, [])
  | n + 1, s =>
      let r1 := specTerminate userId s
      let r2 := runTeardowns userId n r1.1
      (r2.1, r1.2 ++ r2.2)

/-- Number of increments in a trace that carry the final flag. -/
def countFinal (l : List Increment) : Nat :=
  l.countP fun u => u.isClosed

end DGProxy.Meter

namespace DGProxy

/-! ### Concrete inputs used by counterexamples and witnesses -/

/-- A Deepgram live Transcript (Results) payload with its usual metadata
block, whose `request_id` field name is in `sensitiveFields`. -/
def transcriptSample : Json :=
  .obj (.cons "type" (.str "Results")
    (.cons "metadata" (.obj (.cons "request_id" (.str "abc-123") .nil))
      (.cons "is_final" (.bool false) .nil)))

/-- `transcriptSample` after sanitization: the nested `request_id` field
is gone. -/
def transcriptSampleStripped : Json :=
  .obj (.cons "type" (.str "Results")
    (.cons "metadata" (.obj .nil)
      (.cons "is_final" (.bool false) .nil)))

/-- A representative upstream error payload. -/
def errorSample : Json :=
  .obj (.cons "message" (.str "upstream failure") .nil)

/-- A mid-session state of the live proxy: handle 4 is current and has
been confirmed open, startup is finished.  It is the state reached from
`initState` by processing the Open event of handle 4. -/
def Proxy.activeState : Proxy.ConnState :=
  { dgConnection := some 4, isAlive := true, isClosing := false,
    timerActive := true, wsOpen := true, registered := true,
    opened := [4], pendingFrame := none, startupPending := false }

/-- The state of the live proxy right after the client socket closed and
the close handler ran `terminateConnection`. -/
def Proxy.closedState : Proxy.ConnState :=
  (Proxy.step .clientClosed Proxy.initState).1

/-- The part_000 session state while a lazy re-initialization is pending:
no current handle, not closing, client socket open. -/
def SProxy.reinitPendingState : SProxy.SState :=
  { dgConnection := none, isClosing := false, wsOpen := true }

/-! ### Supporting lemmas -/

theorem Proxy.invState_init : Proxy.invState Proxy.initState = true := by
  decide

theorem Proxy.invState_step (e : Proxy.Event) (s : Proxy.ConnState)
    (hs : Proxy.invState s = true) : Proxy.invState (Proxy.step e s).1 = true := by
  cases e <;>
    simp only [Proxy.step, Proxy.invState, Proxy.terminateConnection,
      Proxy.sendToClient] at hs ⊢ <;>
    · repeat' split at hs
      all_goals repeat' split
      all_goals simp_all
      all_goals tauto

theorem Proxy.reachable_invState {s : Proxy.ConnState} (hs : Proxy.Reachable s) :
    Proxy.invState s = true := by
  induction hs with
  | init => exact Proxy.invState_init
  | next e _ ih => exact Proxy.invState_step e _ ih

theorem Proxy.activeState_reachable : Proxy.Reachable Proxy.activeState := by
  have h : Proxy.activeState = (Proxy.step (.openEvt 4 0) Proxy.initState).1 := by
    decide
  rw [h]
  exact Proxy.Reachable.next _ Proxy.Reachable.init

theorem Proxy.closedState_reachable : Proxy.Reachable Proxy.closedState :=
  Proxy.Reachable.next _ Proxy.Reachable.init

theorem removeSensitiveVal_ne_str (apiKey : String) (x : Json)
    (hx : x ≠ .str apiKey) : removeSensitiveVal apiKey x ≠ .str apiKey := by
  cases x <;> simp_all [removeSensitiveVal]

mutual

/-- The sanitizer is correct on values: its output is clean — every field
in the sensitive set and every field or array slot holding the bare API
key has been removed, through arbitrary nesting. -/
theorem cleanVal_removeSensitiveVal (apiKey : String) :
    ∀ j : Json, cleanVal apiKey (removeSensitiveVal apiKey j) = true
  | .null => rfl
  | .bool _ => rfl
  | .num _ => rfl
  | .str _ => rfl
  | .arr xs => by
      simpa [removeSensitiveVal, cleanVal] using
        cleanArr_removeSensitiveArr apiKey xs
  | .obj fs => by
      simpa [removeSensitiveVal, cleanVal] using
        cleanFields_removeSensitiveFields apiKey fs

/-- The sanitizer is correct on arrays. -/
theorem cleanArr_removeSensitiveArr (apiKey : String) :
    ∀ xs : JsonList, cleanArr apiKey (removeSensitiveArr apiKey xs) = true
  | .nil => rfl
  | .cons x xs => by
      by_cases hx : x = Json.str apiKey
      · simp [removeSensitiveArr, cleanArr, hx, cleanVal,
          cleanArr_removeSensitiveArr apiKey xs]
      · simp [removeSensitiveArr, cleanArr, hx,
          cleanVal_removeSensitiveVal apiKey x,
          cleanArr_removeSensitiveArr apiKey xs,
          removeSensitiveVal_ne_str apiKey x hx]

/-- The sanitizer is correct on object field lists. -/
theorem cleanFields_removeSensitiveFields (apiKey : String) :
    ∀ fs : JsonFields,
      cleanFields apiKey (removeSensitiveFields apiKey fs) = true
  | .nil => rfl
  | .cons f v fs => by
      by_cases hv : f ∈ sensitiveFields ∨ v = Json.str apiKey
      · simp [removeSensitiveFields, hv,
          cleanFields_removeSensitiveFields apiKey fs]
      · push_neg at hv
        simp [removeSensitiveFields, cleanFields, hv.1, hv.2,
          cleanVal_removeSensitiveVal apiKey v,
          cleanFields_removeSensitiveFields apiKey fs,
          removeSensitiveVal_ne_str apiKey v hv.2]

end

theorem Meter.runTeardowns_of_closing (userId : String) (n : Nat)
    {s : Meter.MeterSession} (hc : s.isClosing = true) :
    Meter.runTeardowns userId n s = (s, []) := by
  induction n with
  | zero => rfl
  | succ n ih => simp [Meter.runTeardowns, Meter.specTerminate, hc, ih]

end DGProxy

namespace DGProxy

/-! ### Claims -/

/-- Claim C1 (spec-modelled): for every session, regardless of how it
ends and how many teardown triggers fire, exactly one usage increment
with the final flag set is emitted toward the ledger during teardown,
even when the accumulated duration is zero; the index.js listener
buffers it and then flushes it.  The emission lives in the spec-modelled
`specTerminate`; the listener is embedded from src/src/server/index.js
lines 90-108. -/
theorem C1_exactly_one_final_increment (userId : String) (n : Nat)
    {s : Meter.MeterSession} (hc : s.isClosing = false) (hn : 0 < n) :
    (Meter.runTeardowns userId n s).2 =
      [{ userId := userId, duration := s.sinceCheckpoint, isClosed := true }] ∧
    Meter.countFinal (Meter.runTeardowns userId n s).2 = 1 ∧
    Meter.creditUpdateListener false
        { userId := userId, duration := s.sinceCheckpoint, isClosed := true } =
      [.buffer userId s.sinceCheckpoint, .flush userId] := by
  obtain ⟨n, rfl⟩ : ∃ m, n = m + 1 := ⟨n - 1, by omega⟩
  have h2 : Meter.runTeardowns userId n
      ⟨true, s.accumulated + s.sinceCheckpoint, 0⟩ =
      (⟨true, s.accumulated + s.sinceCheckpoint, 0⟩, []) :=
    Meter.runTeardowns_of_closing userId n rfl
  refine ⟨?_, ?_, by simp [Meter.creditUpdateListener]⟩ <;>
    simp [Meter.runTeardowns, Meter.specTerminate, hc, h2, Meter.countFinal]

/-- Witness for C1 at a concrete session that ends with zero accumulated
duration and is torn down twice (say, client close followed by the
shutdown sweep). -/
theorem C1_exactly_one_final_increment_witness :
    (Meter.runTeardowns "u1" 2 ⟨false, 0, 0⟩).2 =
      [{ userId := "u1", duration := 0, isClosed := true }] ∧
    Meter.countFinal (Meter.runTeardowns "u1" 2 ⟨false, 0, 0⟩).2 = 1 ∧
    Meter.creditUpdateListener false
        { userId := "u1", duration := 0, isClosed := true } =
      [.buffer "u1" 0, .flush "u1"] :=
  C1_exactly_one_final_increment "u1" 2 rfl (by decide)

/-- Claim C2 is false of the code: the ternary of src/unnamed/part_000
lines 253-256 reads
`eventName === Warning || eventName === Metadata || LiveTranscriptionEvents.Unhandled`;
its third disjunct is the bare (truthy) SDK constant rather than a
comparison, so the condition holds for every event kind and the
Transcript kind is sanitized too, not forwarded byte-for-byte unchanged:
on a Transcript payload carrying `metadata.request_id`, the forwarded
payload differs from the received one.  (This contradicts the code's own
comment "Only sanitize Warning and Metadata events".) -/
theorem C2_transcript_not_forwarded_unchanged :
    shouldSanitize .Transcript = true ∧
    forwardedEventData "DGKEY" .Transcript transcriptSample =
      transcriptSampleStripped ∧
    forwardedEventData "DGKEY" .Transcript transcriptSample ≠
      transcriptSample := by
  decide

/-- Claim C3 is false of the code: `terminateConnection` (proxy.js lines
249-280) has no entry guard, so a second invocation re-executes the body
— it calls `clearInterval` again (first conjunct: the second run's
effect trace is nonempty) — and on a state whose `isClosing` flag is
already set the body still runs in full, finishing the handle and
closing the socket (second conjunct), which an explicit one-shot guard
would prevent. -/
theorem C3_no_oneshot_guard :
    (Proxy.terminateConnection (Proxy.terminateConnection Proxy.initState).1).2 ≠ [] ∧
    (Proxy.terminateConnection
        { Proxy.initState with
          isClosing := true, dgConnection := some 5, opened := [5] }).2 =
      [.clearTimer, .upstreamFinish 5, .clientClose] := by
  decide

/-- Claim C3, amended: `terminateConnection` has no one-shot guard and
its body re-runs on every invocation, but teardown is idempotent on the
state and its externally visible effects do not repeat: a second
invocation changes nothing and emits only the (always-run)
`clearInterval`; in particular the upstream `finish` and the client
close happen at most once across repeated invocations from the
client-close handler, the client-error handler and the keepalive
timeout. -/
theorem C3_second_invocation_idempotent (s : Proxy.ConnState) :
    (Proxy.terminateConnection (Proxy.terminateConnection s).1).1 =
      (Proxy.terminateConnection s).1 ∧
    (Proxy.terminateConnection (Proxy.terminateConnection s).1).2 =
      [.clearTimer] := by
  simp [Proxy.terminateConnection]

/-- Claim C4 is false of the code: when the initial
`initializeDeepgramConnection()` fails (10s timeout or construction
throw), the catch of proxy.js lines 307-311 only calls
`terminateConnection`; the session does transition to terminating and
the client socket is closed, but the effect trace contains no message to
the client at all — no structured error message is sent. -/
theorem C4_startup_failure_sends_no_error :
    (Proxy.step .initFail Proxy.initState).1.isClosing = true ∧
    (Proxy.step .initFail Proxy.initState).2 = [.clearTimer, .clientClose] ∧
    ((Proxy.step .initFail Proxy.initState).2.all
      fun eff => !eff.isClientSend) = true := by
  decide

/-- Claim C4, amended: on startup failure the session transitions to
terminating and the client connection is closed, but the client receives
no error message (the failure is only logged). -/
theorem C4_startup_failure_terminates_silently {s : Proxy.ConnState}
    (hp : s.startupPending = true) (hw : s.wsOpen = true) :
    (Proxy.step .initFail s).1.isClosing = true ∧
    Proxy.Effect.clientClose ∈ (Proxy.step .initFail s).2 ∧
    ((Proxy.step .initFail s).2.all fun eff => !eff.isClientSend) = true := by
  cases hdg : s.dgConnection <;>
    simp [Proxy.step, Proxy.terminateConnection, hp, hw, hdg,
      Proxy.Effect.isClientSend]

/-- Witness for C4 (amended) at the session-startup state. -/
theorem C4_startup_failure_terminates_silently_witness :
    (Proxy.step .initFail Proxy.initState).1.isClosing = true ∧
    Proxy.Effect.clientClose ∈ (Proxy.step .initFail Proxy.initState).2 ∧
    ((Proxy.step .initFail Proxy.initState).2.all
      fun eff => !eff.isClientSend) = true :=
  C4_startup_failure_terminates_silently rfl rfl

/-- Claim C5 is false of the code as an "if and only if": an upstream
error that arrives before readiness of a lazily re-initialized
connection (no current handle, session active) makes the Error listener
of src/unnamed/part_000 reject the pending promise, but the rejection is
caught by the media-path catch (lines 329-332), which only logs and
drops the frame — the session is not terminated even though the error
occurred before the connection reached readiness. -/
theorem C5_reinit_error_does_not_terminate :
    SProxy.errorHandlerRejects SProxy.reinitPendingState = true ∧
    (SProxy.errorDuringReinit "DGKEY" SProxy.reinitPendingState errorSample).1 =
      SProxy.reinitPendingState ∧
    (SProxy.errorDuringReinit "DGKEY" SProxy.reinitPendingState errorSample).1.isClosing
      = false := by
  decide

/-- Claim C5, amended: an upstream error event is sanitized and forwarded
to the client whenever the session is not closing and the client socket
is open; during session startup the session is terminated exactly when
the error arrives before the connection reached readiness (no current
handle); an error during lazy re-initialization never terminates the
session (the frame is dropped); an error after readiness leaves the
session running. -/
theorem C5_error_forward_and_termination (apiKey : String) (p : Json)
    {s : SProxy.SState} (hw : s.wsOpen = true) (hc : s.isClosing = false) :
    SProxy.errorHandlerEffects apiKey s p =
      [.clientSend (sanitizeEventData apiKey p)] ∧
    (SProxy.errorDuringStartup apiKey s p).1.isClosing =
      (s.dgConnection == none) ∧
    (SProxy.errorDuringReinit apiKey s p).1 = s := by
  refine ⟨by simp [SProxy.errorHandlerEffects, SProxy.sendToClient, hw, hc],
    ?_, rfl⟩
  cases hdg : s.dgConnection <;>
    simp [SProxy.errorDuringStartup, SProxy.errorHandlerRejects,
      SProxy.terminateConnection, hdg, hc]

/-- Witness for C5 (amended) at the re-initialization-pending state. -/
theorem C5_error_forward_and_termination_witness :
    SProxy.errorHandlerEffects "DGKEY" SProxy.reinitPendingState errorSample =
      [.clientSend (sanitizeEventData "DGKEY" errorSample)] ∧
    (SProxy.errorDuringStartup "DGKEY" SProxy.reinitPendingState errorSample).1.isClosing =
      (SProxy.reinitPendingState.dgConnection == none) ∧
    (SProxy.errorDuringReinit "DGKEY" SProxy.reinitPendingState errorSample).1 =
      SProxy.reinitPendingState :=
  C5_error_forward_and_termination "DGKEY" errorSample rfl rfl

/-- Claim C6: in every reachable session state, every media frame the
handlers forward upstream goes to a handle whose Open confirmation has
been observed — either in an earlier step (the stored-handle path, lines
331-345, where the stored handle was put there by the Open handler of
lines 90-104) or earlier in the same handler invocation (the
resume-after-reinitialization path). -/
theorem C6_no_send_before_open {s : Proxy.ConnState} (e : Proxy.Event)
    (hs : Proxy.Reachable s) :
    Proxy.sendsOnlyOpened (Proxy.step e s) = true := by
  have hinv := Proxy.reachable_invState hs
  cases e <;>
    simp only [Proxy.step, Proxy.sendsOnlyOpened, Proxy.sendToClient,
      Proxy.terminateConnection, Proxy.invState] at hinv ⊢ <;>
    · repeat' split at hinv
      all_goals repeat' split
      all_goals simp_all

/-- Witness for C6: a media frame arriving in the mid-session state with
confirmed handle 4 is sent to an opened handle. -/
theorem C6_no_send_before_open_witness :
    Proxy.sendsOnlyOpened (Proxy.step (.media 9) Proxy.activeState) = true :=
  C6_no_send_before_open (.media 9) Proxy.activeState_reachable

/-- Claim C7: from any reachable state that has entered the terminating
state, no handler invocation sends anything to the client or to the
upstream connection any more — every effect any further event can
produce is the teardown path's own `clearInterval`. -/
theorem C7_terminating_absorbs {s : Proxy.ConnState} (e : Proxy.Event)
    (hs : Proxy.Reachable s) (hc : s.isClosing = true) :
    ((Proxy.step e s).2.all fun eff => eff == Proxy.Effect.clearTimer) = true := by
  have hinv := Proxy.reachable_invState hs
  cases e <;>
    simp only [Proxy.step, Proxy.sendToClient, Proxy.terminateConnection,
      Proxy.invState] at hinv ⊢ <;>
    · repeat' split at hinv
      all_goals repeat' split
      all_goals simp_all

/-- Witness for C7 at the state reached after the client socket closed:
a subsequent transcript-like event produces no sends. -/
theorem C7_terminating_absorbs_witness :
    ((Proxy.step (.fwdEvt 3) Proxy.closedState).2.all
      fun eff => eff == Proxy.Effect.clearTimer) = true :=
  C7_terminating_absorbs (.fwdEvt 3) Proxy.closedState_reachable (by decide)

/-- Claim C8: in every reachable state whose keepalive interval is still
installed, a tick terminates the session when the alive flag is down,
and otherwise clears the alive flag and pings the client; a pong sets
the alive flag. -/
theorem C8_keepalive_cycle {s : Proxy.ConnState} (hs : Proxy.Reachable s)
    (ht : s.timerActive = true) :
    Proxy.step .tick s =
      (if s.isAlive then ({ s with isAlive := false }, [.clientPing])
       else Proxy.terminateConnection s) ∧
    Proxy.step .pong s = ({ s with isAlive := true }, []) := by
  have hinv := Proxy.reachable_invState hs
  simp only [Proxy.invState, ht] at hinv
  constructor
  · cases ha : s.isAlive <;> simp_all [Proxy.step]
  · rfl

/-- Witness for C8 at the fresh session state (alive, timer installed):
the tick clears the alive flag and pings. -/
theorem C8_keepalive_cycle_witness :
    Proxy.step .tick Proxy.initState =
      (if Proxy.initState.isAlive
       then ({ Proxy.initState with isAlive := false }, [.clientPing])
       else Proxy.terminateConnection Proxy.initState) ∧
    Proxy.step .pong Proxy.initState =
      ({ Proxy.initState with isAlive := true }, []) :=
  C8_keepalive_cycle Proxy.Reachable.init rfl

/-- Claim C9: in an active session with current handle `h`, a stop
control message finishes the handle and clears it without terminating
the session, and a subsequent media frame triggers exactly one
re-initialization attempt. -/
theorem C9_stop_then_reinit {s : Proxy.ConnState} (h f : Nat)
    (hdg : s.dgConnection = some h) (hc : s.isClosing = false) :
    Proxy.step .stopMsg s =
      ({ s with dgConnection := none }, [.upstreamFinish h]) ∧
    (Proxy.step .stopMsg s).1.isClosing = false ∧
    (Proxy.step (.media f) (Proxy.step .stopMsg s).1).2 = [.initAttempt] := by
  simp [Proxy.step, hdg, hc]

/-- Witness for C9 at the mid-session state with current handle 4. -/
theorem C9_stop_then_reinit_witness :
    Proxy.step .stopMsg Proxy.activeState =
      ({ Proxy.activeState with dgConnection := none }, [.upstreamFinish 4]) ∧
    (Proxy.step .stopMsg Proxy.activeState).1.isClosing = false ∧
    (Proxy.step (.media 9) (Proxy.step .stopMsg Proxy.activeState).1).2 =
      [.initAttempt] :=
  C9_stop_then_reinit 4 9 rfl rfl

/-- Claim C10: proxy.js registers two identical SpeechFinished listeners
(lines 181-190 and 214-223), so a SpeechFinished event received while
the session is not closing (and the client socket is open) is forwarded
to the client twice. -/
theorem C10_speechfinished_forwarded_twice {s : Proxy.ConnState} (p : Nat)
    (hc : s.isClosing = false) (hw : s.wsOpen = true) :
    (Proxy.step (.speechFinishedEvt p) s).2 =
      [.clientSend (.event p), .clientSend (.event p)] := by
  simp [Proxy.step, Proxy.sendToClient, hc, hw]

/-- Witness for C10 at the mid-session state. -/
theorem C10_speechfinished_forwarded_twice_witness :
    (Proxy.step (.speechFinishedEvt 7) Proxy.activeState).2 =
      [.clientSend (.event 7), .clientSend (.event 7)] :=
  C10_speechfinished_forwarded_twice 7 rfl rfl

end DGProxy

